import Mathlib

/-!
Verification of the landing-job queue and repository pipeline of
`lando-prototype` (`src/lando/main/models.py`), via a shallow embedding.

Database rows become Lean structures, querysets become lists, and the
queue query becomes a filter-then-sort function.  Machine-level details
that the claims depend on are kept faithfully:

* `LandingJob.status` is stored as a `CharField` (a string), nullable
  with default `None` (models.py:88-94), so the embedded field is an
  `Option LandingJobStatus` and `order_by("-status")` compares the
  *stored strings* byte-wise descending (ASCII collation), not the
  declaration order of the enum.
* `if repositories:` / `if grace_seconds:` are Python truthiness tests:
  an empty list and the integer 0 are falsy.
-/

namespace Lando

/-- The six job states of `LandingJobStatus` (models.py:32-38).  The
database stores the string value of the member. -/
inductive LandingJobStatus
  | SUBMITTED
  | IN_PROGRESS
  | DEFERRED
  | FAILED
  | LANDED
  | CANCELLED
deriving DecidableEq, Repr, Fintype

/-- The string stored in the `status` column for each member of the
`TextChoices` enum (models.py:32-38). -/
def LandingJobStatus.value : LandingJobStatus → String
  | .SUBMITTED => "SUBMITTED"
  | .IN_PROGRESS => "IN_PROGRESS"
  | .DEFERRED => "DEFERRED"
  | .FAILED => "FAILED"
  | .LANDED => "LANDED"
  | .CANCELLED => "CANCELLED"

/-- One `LandingJob` row (models.py:87-126).  Only the columns the queue
query and enqueue touch are embedded.  `created_at` is a timestamp
rendered as an integer (seconds); `target_repo` is the referenced
repository (nullable foreign key), identified by name; `revisions` is
the many-to-many association to `Revision`, by id, in insertion order. -/
structure LandingJob where
  id : Nat
  status : Option LandingJobStatus
  priority : Int
  created_at : Int
  target_repo : Option String
  revisions : List Nat
deriving DecidableEq, Repr

/-- `applicable_statuses` of `job_queue_query` (models.py:142-146). -/
def applicable_statuses : List LandingJobStatus :=
  [.SUBMITTED, .IN_PROGRESS, .DEFERRED]

/-- The `status__in=applicable_statuses` filter (models.py:147).  A SQL
`IN` test is false on a NULL column, so a job with no status is
excluded. -/
def statusEligible : Option LandingJobStatus → Bool
  | some s => applicable_statuses.contains s
  | none => false

/-- Byte-wise (code-point) lexicographic strict order on character
lists: the collation under which the database compares the `status`
varchar column in `ORDER BY`.  For the all-uppercase ASCII status
values this agrees with every standard collation. -/
def charListLt : List Char → List Char → Bool
  | [], [] => false
  | [], _ :: _ => true
  | _ :: _, [] => false
  | a :: as, b :: bs =>
    if a.toNat < b.toNat then true
    else if b.toNat < a.toNat then false
    else charListLt as bs

/-- The sort key contributed by the `status` column under
`order_by("-status")`: the stored string.  A NULL status sorts last
here; such rows are removed by the status filter before sorting, so the
choice is immaterial to the query. -/
def statusKey (s : Option LandingJobStatus) : List Char :=
  match s with
  | some st => st.value.toList
  | none => []

/-- The compound ordering of `order_by("-status", "-priority",
"created_at")` (models.py:161): status string descending, then priority
descending, then creation time ascending, each later key only breaking
ties in the earlier ones.  `JobLE a b` means `a` is returned no later
than `b`. -/
def JobLE (a b : LandingJob) : Prop :=
  charListLt (statusKey b.status) (statusKey a.status) = true
  ∨ (statusKey a.status = statusKey b.status
      ∧ (b.priority < a.priority
          ∨ (a.priority = b.priority ∧ a.created_at ≤ b.created_at)))

instance : DecidableRel JobLE := fun a b => by
  unfold JobLE; exact inferInstance

/-- Python truthiness of the `repositories` argument
(`Optional[Iterable[str]]`): `None` and an empty collection are falsy,
so `if repositories:` (models.py:149) skips the filter for both. -/
def reposTruthy : Option (List String) → Bool
  | some rs => !rs.isEmpty
  | none => false

/-- `LandingJob.job_queue_query` (models.py:128-163) over a list of
rows.  `now` is the clock value read at models.py:153.  Filters are
applied in source order, then the single compound `order_by`. -/
def job_queue_query (jobs : List LandingJob)
    (repositories : Option (List String)) (grace_seconds : Int)
    (now : Int) : List LandingJob :=
  let q := jobs.filter fun j => statusEligible j.status
  let q := if reposTruthy repositories then
      q.filter fun j =>
        match j.target_repo with
        | some r => (repositories.getD []).contains r
        | none => false
    else q
  let q := if grace_seconds ≠ 0 then
      q.filter fun j => decide (j.created_at < now - grace_seconds)
    else q
  q.insertionSort JobLE

/-- `DEFAULT_GRACE_SECONDS` (models.py:24): `60 * 2` unless overridden
by the environment. -/
def DEFAULT_GRACE_SECONDS : Int := 120

/-- `LandingJob.next_job` (models.py:165-172): the same query; the
`select_for_update()` row-locking decoration has no effect on which
rows are selected or their order. -/
def next_job (jobs : List LandingJob)
    (repositories : Option (List String)) (now : Int) : List LandingJob :=
  job_queue_query jobs repositories DEFAULT_GRACE_SECONDS now

/-- The keyword parameters accepted by `add_job_with_revisions`
(models.py:175-181), forwarded to the `LandingJob` constructor.  A
`none` field means the parameter was not passed, so the model field
keeps its declared default. -/
structure JobParams where
  status : Option (Option LandingJobStatus)
  priority : Option Int
  target_repo : Option (Option String)
deriving DecidableEq, Repr

/-- `LandingJob(**params)` followed by `job.save()`: a fresh row whose
unspecified columns take the field defaults — in particular `status`
defaults to `None` (models.py:88-94), `priority` to 0 (models.py:116)
and the revision association starts empty. -/
def LandingJob.create (id : Nat) (now : Int) (params : JobParams) : LandingJob :=
  { id := id
    status := params.status.getD none
    priority := params.priority.getD 0
    created_at := now
    target_repo := params.target_repo.getD none
    revisions := [] }

/-- `add_job_with_revisions(revisions, **params)` (models.py:175-181):
create and save the job, then `job.revisions.add(revision)` for each
revision in the given order. -/
def add_job_with_revisions (revisions : List Nat) (id : Nat) (now : Int)
    (params : JobParams) : LandingJob :=
  let job := LandingJob.create id now params
  { job with revisions := job.revisions ++ revisions }

/-! ## The repository controller (`Repo`, models.py:184-255)

Each git operation is a call to `Repo._run`, which invokes the external
`git` binary via `subprocess.run` — without `check=True`, so a non-zero
exit code never raises by itself; any error handling is explicit in the
caller.  The external binary is embedded as a function from (working
directory, argv) to a process result, and each operation is embedded as
the sequence of calls it issues plus the exception it raises, if any
(`Except`-style). -/

/-- The result of `subprocess.run(..., capture_output=True, text=True)`
(models.py:203). -/
structure CommandResult where
  returncode : Int
  stdout : String
  stderr : String
deriving DecidableEq, Repr

/-- The external version-control command-line tool: working directory
and argv determine the process result. -/
def GitRunner : Type := String → List String → CommandResult

/-- One invocation of the external tool: the working directory and the
full command line. -/
structure GitCall where
  cwd : String
  command : List String
deriving DecidableEq, Repr

/-- A `Repo` row (models.py:184-198).  `settings.REPO_ROOT` is passed
explicitly where needed. -/
structure Repo where
  name : String
  default_branch : String
  url : String
  push_path : String
  pull_path : String
  is_initialized : Bool
  system_path : String
deriving DecidableEq, Repr

/-- `Repo._run(*args, cwd=None)` (models.py:200-204): `cwd = cwd or
self.system_path` (Python `or`: an empty string is falsy), `command =
["git"] + args`, run and return the result. -/
def Repo._run (git : GitRunner) (repo : Repo) (args : List String)
    (cwd : Option String) : GitCall × CommandResult :=
  let c := match cwd with
    | some d => if d = "" then repo.system_path else d
    | none => repo.system_path
  (⟨c, "git" :: args⟩, git c ("git" :: args))

/-- The exceptions the repository controller can raise. -/
inductive RepoError
  /-- The bare `raise` at models.py:210: re-raise with no active
  exception, which surfaces as a `RuntimeError`, not a typed
  `AlreadyInitializedError` (no such class exists in the code). -/
  | bare_raise
  /-- `Exception(f"{result.returncode}: {result.stderr}")` at
  models.py:218: a generic exception carrying the clone's exit code and
  captured stderr. -/
  | cloneFailed (returncode : Int) (stderr : String)
deriving DecidableEq, Repr

/-- Outcome of `Repo.initialize()`: the persisted row (`db`, what a
reload would see), the in-memory instance after the call (`mem`), and
the exception raised, if any. -/
structure InitOutcome where
  db : Repo
  mem : Repo
  error : Option RepoError
deriving DecidableEq, Repr

/-- `Repo.initialize()` (models.py:206-218).  After `refresh_from_db`
(`repo` is the stored row): a bare `raise` if already initialized;
otherwise assign `system_path` on the instance, run
`git clone <pull_path> <name>` with `cwd=settings.REPO_ROOT`, and only
on exit code 0 set `is_initialized` and save.  On a non-zero exit,
raise carrying the exit code and stderr; nothing was saved, so the
stored row is unchanged (the in-memory instance keeps the assigned
`system_path`). -/
def Repo.initialize (git : GitRunner) (repo_root : String) (repo : Repo) :
    InitOutcome :=
  if repo.is_initialized then
    { db := repo, mem := repo, error := some .bare_raise }
  else
    let repo1 := { repo with system_path := repo_root ++ "/" ++ repo.name }
    let result :=
      ( Repo._run git repo1 ["clone", repo.pull_path, repo.name] (some repo_root)).2
    if result.returncode = 0 then
      let repo2 := { repo1 with is_initialized := true }
      { db := repo2, mem := repo2, error := none }
    else
      { db := repo, mem := repo1,
        error := some (.cloneFailed result.returncode result.stderr) }

/-- `Repo.pull()` (models.py:220-221): runs `git pull --all --prune`
and discards the result — the exit code is never inspected and no
exception is raised. -/
def Repo.pull (git : GitRunner) (repo : Repo) :
    List GitCall × Option RepoError :=
  let r := Repo._run git repo ["pull", "--all", "--prune"] none
  ([r.1], none)

/-- `Repo.push()` (models.py:254-255): runs `git push` and discards the
result — the exit code is never inspected and no exception is
raised. -/
def Repo.push (git : GitRunner) (repo : Repo) :
    List GitCall × Option RepoError :=
  let r := Repo._run git repo ["push"] none
  ([r.1], none)

/-- Modelled from the spec: `GitPatchHelper` lives in `lando.utils`,
which is not under `src/`.  Per §2 (Patch Builder) and §4.2 of the
spec, it parses an email-style patch buffer into its `From` and `Date`
header fields, the commit description (message), and the diff body;
`get_header` returns a header field, `write_commit_description` and
`write_diff` write the respective parts to a file.  A value of this
structure stands for `GitPatchHelper(patch_buffer)`. -/
structure GitPatchHelper where
  from_header : String
  date_header : String
  commit_description : String
  diff : String
deriving DecidableEq, Repr

/-- The observable effects of `Repo.apply_patch`: the two temporary
files with the content written to them, the git invocations in order,
and the exception raised, if any. -/
structure ApplyPatchTrace where
  msg_file : String × String
  diff_file : String × String
  calls : List GitCall
  error : Option RepoError
deriving DecidableEq, Repr

/-- `Repo.apply_patch(patch_buffer)` (models.py:227-249).  `ph` is
`GitPatchHelper(patch_buffer)`; `f_msg`/`f_diff` are the names of the
two `NamedTemporaryFile`s.  The commit message and the diff are written
out, then `git apply <f_diff>`, `git add -A`, and `git commit --date
<Date header> --author <From header> --file <f_msg>` are issued in that
order.  No subprocess result is inspected, so no exception is
raised. -/
def Repo.apply_patch (git : GitRunner) (repo : Repo)
    (ph : GitPatchHelper) (f_msg f_diff : String) : ApplyPatchTrace :=
  let r1 := Repo._run git repo ["apply", f_diff] none
  let date := ph.date_header
  let user := ph.from_header
  let r2 := Repo._run git repo ["add", "-A"] none
  let r3 := Repo._run git repo
    ["commit", "--date", date, "--author", user, "--file", f_msg] none
  { msg_file := (f_msg, ph.commit_description)
    diff_file := (f_diff, ph.diff)
    calls := [r1.1, r2.1, r3.1]
    error := none }

/-- `Repo.last_commit_id()` (models.py:251-252). -/
def Repo.last_commit_id (git : GitRunner) (repo : Repo) : String :=
  ( Repo._run git repo ["rev-parse", "HEAD"] none).2.stdout.trim

/-! ## Concrete fixtures used in counterexamples and witnesses -/

/-- A repository row as created by configuration, before any
initialization: `is_initialized=false`, `system_path` at its empty
default. -/
def repo0 : Repo :=
  { name := "gecko", default_branch := "main", url := "https://example/r",
    push_path := "push", pull_path := "pull", is_initialized := false,
    system_path := "" }

/-- An already-initialized repository row. -/
def repo_init : Repo :=
  { name := "gecko", default_branch := "main", url := "https://example/r",
    push_path := "push", pull_path := "pull", is_initialized := true,
    system_path := "/repos/gecko" }

/-- An external tool whose every invocation fails with exit code 1 and
captured stderr `"boom"`. -/
def git_fail : GitRunner := fun _ _ =>
  { returncode := 1, stdout := "", stderr := "boom" }

/-- An external tool whose every invocation succeeds. -/
def git_ok : GitRunner := fun _ _ =>
  { returncode := 0, stdout := "", stderr := "" }

/-! ## Ordering infrastructure -/

/-- Strict status-key comparison is transitive (finite check over the
seven possible column values). -/
theorem statusKey_lt_trans : ∀ a b c : Option LandingJobStatus,
    charListLt (statusKey a) (statusKey b) = true →
    charListLt (statusKey b) (statusKey c) = true →
    charListLt (statusKey a) (statusKey c) = true := by decide

/-- Status keys are totally ordered: strictly less one way, the other
way, or equal (finite check over the seven possible column values). -/
theorem statusKey_lt_trichotomy : ∀ a b : Option LandingJobStatus,
    charListLt (statusKey a) (statusKey b) = true
    ∨ charListLt (statusKey b) (statusKey a) = true
    ∨ statusKey a = statusKey b := by decide

/-- Status-key comparison is irreflexive. -/
theorem statusKey_lt_irrefl : ∀ s : Option LandingJobStatus,
    charListLt (statusKey s) (statusKey s) = false := by decide

theorem jobLE_total : ∀ a b : LandingJob, JobLE a b ∨ JobLE b a := by
  intro a b
  unfold JobLE
  rcases statusKey_lt_trichotomy a.status b.status with h | h | h
  · exact Or.inr (Or.inl h)
  · exact Or.inl (Or.inl h)
  · rcases lt_trichotomy a.priority b.priority with hp | hp | hp
    · exact Or.inr (Or.inr ⟨h.symm, Or.inl hp⟩)
    · rcases le_total a.created_at b.created_at with hc | hc
      · exact Or.inl (Or.inr ⟨h, Or.inr ⟨hp, hc⟩⟩)
      · exact Or.inr (Or.inr ⟨h.symm, Or.inr ⟨hp.symm, hc⟩⟩)
    · exact Or.inl (Or.inr ⟨h, Or.inl hp⟩)

theorem jobLE_trans : ∀ a b c : LandingJob, JobLE a b → JobLE b c → JobLE a c := by
  intro a b c h1 h2
  unfold JobLE at h1 h2 ⊢
  rcases h1 with h1 | ⟨e1, h1⟩ <;> rcases h2 with h2 | ⟨e2, h2⟩
  · exact Or.inl (statusKey_lt_trans _ _ _ h2 h1)
  · exact Or.inl (by rw [← e2]; exact h1)
  · exact Or.inl (by rw [e1]; exact h2)
  · refine Or.inr ⟨e1.trans e2, ?_⟩
    rcases h1 with h1 | ⟨p1, h1⟩ <;> rcases h2 with h2 | ⟨p2, h2⟩
    · exact Or.inl (lt_trans h2 h1)
    · exact Or.inl (by rw [← p2]; exact h1)
    · exact Or.inl (by rw [p1]; exact h2)
    · exact Or.inr ⟨p1.trans p2, le_trans h1 h2⟩

instance : IsTotal LandingJob JobLE := ⟨jobLE_total⟩

instance : IsTrans LandingJob JobLE := ⟨jobLE_trans⟩

/-- Membership in `if c then l.filter p else l` gives membership in `l`
plus the predicate whenever the condition held. -/
theorem mem_ite_filter {α : Type} {c : Prop} [Decidable c]
    {p : α → Bool} {l : List α} {j : α}
    (h : j ∈ if c then l.filter p else l) :
    j ∈ l ∧ (c → p j = true) := by
  split at h
  · exact ⟨(List.mem_filter.mp h).1, fun _ => (List.mem_filter.mp h).2⟩
  · next hc => exact ⟨h, fun hcc => absurd hcc hc⟩

/-- The status filter keeps exactly the three applicable statuses. -/
theorem statusEligible_iff (s : Option LandingJobStatus) :
    statusEligible s = true ↔
      (s = some .SUBMITTED ∨ s = some .IN_PROGRESS ∨ s = some .DEFERRED) := by
  cases s with
  | none => simp [statusEligible]
  | some st => cases st <;> decide

/-- Anatomy of membership in the queue query: a returned row came from
the input, passed the status filter, passed the repository filter when
that filter was active, and passed the grace-period filter when that
filter was active. -/
theorem mem_job_queue_query {j : LandingJob} {jobs : List LandingJob}
    {repositories : Option (List String)} {grace_seconds now : Int}
    (hj : j ∈ job_queue_query jobs repositories grace_seconds now) :
    j ∈ jobs ∧ statusEligible j.status = true
    ∧ (reposTruthy repositories = true →
        ∃ r, j.target_repo = some r ∧ r ∈ repositories.getD [])
    ∧ (grace_seconds ≠ 0 → j.created_at < now - grace_seconds) := by
  simp only [job_queue_query, List.mem_insertionSort] at hj
  obtain ⟨hj, hgrace⟩ := mem_ite_filter hj
  obtain ⟨hj, hrepo⟩ := mem_ite_filter hj
  obtain ⟨hjmem, helig⟩ := List.mem_filter.mp hj
  refine ⟨hjmem, helig, ?_, ?_⟩
  · intro hr
    have hp := hrepo hr
    cases htr : j.target_repo with
    | none => rw [htr] at hp; cases hp
    | some r =>
      rw [htr] at hp
      exact ⟨r, rfl, by simpa using hp⟩
  · intro hg
    simpa using hgrace hg

/-! ## Claims -/

/-- C1.  The claim says an `IN_PROGRESS` job is returned before any
`SUBMITTED`/`DEFERRED` job regardless of priority.  The code orders by
`order_by("-status", ...)` on a varchar column, i.e. by the status
*string* descending, and `"SUBMITTED" > "IN_PROGRESS" > "DEFERRED"`
byte-wise — so a `SUBMITTED` job is returned before an `IN_PROGRESS`
one, contradicting both the claim and the code's own comment
(models.py:157-160).  Concretely: an `IN_PROGRESS` job with priority 99
and a `SUBMITTED` job with priority 0, same repository, are returned
`SUBMITTED` first. -/
theorem c1_in_progress_not_first :
    job_queue_query
      [{ id := 1, status := some .IN_PROGRESS, priority := 99, created_at := 0,
         target_repo := some "R", revisions := [] },
       { id := 2, status := some .SUBMITTED, priority := 0, created_at := 0,
         target_repo := some "R", revisions := [] }]
      (some ["R"]) 0 100
    = [{ id := 2, status := some .SUBMITTED, priority := 0, created_at := 0,
         target_repo := some "R", revisions := [] },
       { id := 1, status := some .IN_PROGRESS, priority := 99, created_at := 0,
         target_repo := some "R", revisions := [] }] := by decide

/-- C2 counterexample.  The claim's notion of "equal status precedence"
(per the spec's ordering: `IN_PROGRESS` before all others, priority
deciding "among the remainder") puts `SUBMITTED` and `DEFERRED` in one
precedence class.  The code instead ranks the status *strings*
descending before ever looking at priority, so a `SUBMITTED` job with
priority 0 is returned before a `DEFERRED` job with priority 99 — the
higher-priority job of the supposedly equal class comes second. -/
theorem c2_deferred_after_submitted_counterexample :
    job_queue_query
      [{ id := 1, status := some .DEFERRED, priority := 99, created_at := 0,
         target_repo := some "R", revisions := [] },
       { id := 2, status := some .SUBMITTED, priority := 0, created_at := 0,
         target_repo := some "R", revisions := [] }]
      (some ["R"]) 0 100
    = [{ id := 2, status := some .SUBMITTED, priority := 0, created_at := 0,
         target_repo := some "R", revisions := [] },
       { id := 1, status := some .DEFERRED, priority := 99, created_at := 0,
         target_repo := some "R", revisions := [] }] := by decide

/-- C2 (amended).  The queue query is one compound three-key sort — the
returned list is pairwise ordered by `JobLE` (status *string*
descending, then priority descending, then `created_at` ascending,
each later key only breaking ties in the earlier ones) — and among
returned jobs of *the same status* (a strictly finer condition than
the spec's precedence classes, which merge `SUBMITTED` and `DEFERRED`),
the higher-priority job comes first and equal priorities are ordered by
earlier `created_at` (FIFO). -/
theorem c2_compound_ordering (jobs : List LandingJob)
    (repositories : Option (List String)) (grace_seconds now : Int) :
    (job_queue_query jobs repositories grace_seconds now).Pairwise JobLE
    ∧ (job_queue_query jobs repositories grace_seconds now).Pairwise
        (fun a b => a.status = b.status →
          b.priority < a.priority
          ∨ (a.priority = b.priority ∧ a.created_at ≤ b.created_at)) := by
  have hs : List.Sorted JobLE (job_queue_query jobs repositories grace_seconds now) :=
    List.sorted_insertionSort JobLE _
  refine ⟨hs, hs.imp ?_⟩
  intro a b hab
  intro hstat
  rcases hab with h | ⟨_, h⟩
  · rw [hstat, statusKey_lt_irrefl] at h
    exact Bool.noConfusion h
  · exact h

/-- C3 counterexample.  With a non-`None` but *empty* `repositories`
collection the filter is skipped (`if repositories:` is falsy), so the
query returns a job whose `target_repo` is not in the given
collection — the claim as stated fails for empty collections. -/
theorem c3_empty_collection_counterexample :
    job_queue_query
      [{ id := 1, status := some .SUBMITTED, priority := 0, created_at := 0,
         target_repo := some "X", revisions := [] }] (some []) 0 100
    = [{ id := 1, status := some .SUBMITTED, priority := 0, created_at := 0,
         target_repo := some "X", revisions := [] }]
    ∧ "X" ∉ ([] : List String) := by decide

/-- C3 (amended).  Every job returned by the queue query has status in
{`SUBMITTED`, `IN_PROGRESS`, `DEFERRED`}, and when a *non-empty*
repositories collection is given, its `target_repo` is in that
collection. -/
theorem c3_result_statuses_and_repositories (jobs : List LandingJob)
    (repositories : Option (List String)) (grace_seconds now : Int)
    (j : LandingJob)
    (hj : j ∈ job_queue_query jobs repositories grace_seconds now) :
    (j.status = some .SUBMITTED ∨ j.status = some .IN_PROGRESS
      ∨ j.status = some .DEFERRED)
    ∧ (∀ rs, repositories = some rs → rs ≠ [] →
        ∃ r, j.target_repo = some r ∧ r ∈ rs) := by
  obtain ⟨-, helig, hrepo, -⟩ := mem_job_queue_query hj
  refine ⟨(statusEligible_iff _).mp helig, ?_⟩
  intro rs hrs hne
  subst hrs
  have ht : reposTruthy (some rs) = true := by
    cases rs with
    | nil => exact absurd rfl hne
    | cons a l => rfl
  obtain ⟨r, h1, h2⟩ := hrepo ht
  exact ⟨r, h1, by simpa using h2⟩

/-- C3 witness: the amended theorem applied to a concrete eligible job
restricted to its own repository. -/
theorem c3_witness :
    (({ id := 1, status := some .SUBMITTED, priority := 0, created_at := 0,
        target_repo := some "X", revisions := [] } : LandingJob).status
          = some LandingJobStatus.SUBMITTED
      ∨ ({ id := 1, status := some .SUBMITTED, priority := 0, created_at := 0,
           target_repo := some "X", revisions := [] } : LandingJob).status
          = some LandingJobStatus.IN_PROGRESS
      ∨ ({ id := 1, status := some .SUBMITTED, priority := 0, created_at := 0,
           target_repo := some "X", revisions := [] } : LandingJob).status
          = some LandingJobStatus.DEFERRED)
    ∧ (∀ rs, (some ["X"] : Option (List String)) = some rs → rs ≠ [] →
        ∃ r, ({ id := 1, status := some .SUBMITTED, priority := 0, created_at := 0,
                target_repo := some "X", revisions := [] } : LandingJob).target_repo
              = some r ∧ r ∈ rs) :=
  c3_result_statuses_and_repositories
    [{ id := 1, status := some .SUBMITTED, priority := 0, created_at := 0,
       target_repo := some "X", revisions := [] }]
    (some ["X"]) 0 100
    { id := 1, status := some .SUBMITTED, priority := 0, created_at := 0,
      target_repo := some "X", revisions := [] }
    (by decide)

/-- C4.  With a positive `grace_seconds`, any job created within the
last `grace_seconds` of the query's `now` — the boundary `created_at =
now - grace_seconds` included, since the filter is a strict
`created_at < now - grace_seconds` — is excluded from the query
result. -/
theorem c4_grace_period_excludes (jobs : List LandingJob)
    (repositories : Option (List String)) (grace_seconds now : Int)
    (j : LandingJob) (hg : 0 < grace_seconds)
    (hrecent : now - grace_seconds ≤ j.created_at) :
    j ∉ job_queue_query jobs repositories grace_seconds now := by
  intro hj
  obtain ⟨-, -, -, hgr⟩ := mem_job_queue_query hj
  have := hgr (by omega)
  omega

/-- C4 witness: the boundary case itself — `grace_seconds = 5`,
`now = 100`, a job created exactly at `95 = now - grace_seconds` is
excluded. -/
theorem c4_witness :
    ({ id := 1, status := some .SUBMITTED, priority := 0, created_at := 95,
       target_repo := none, revisions := [] } : LandingJob)
      ∉ job_queue_query
          [{ id := 1, status := some .SUBMITTED, priority := 0, created_at := 95,
             target_repo := none, revisions := [] }] none 5 100 :=
  c4_grace_period_excludes
    [{ id := 1, status := some .SUBMITTED, priority := 0, created_at := 95,
       target_repo := none, revisions := [] }] none 5 100
    { id := 1, status := some .SUBMITTED, priority := 0, created_at := 95,
      target_repo := none, revisions := [] }
    (by decide) (by decide)

/-- C10.  An empty (but non-`None`) repositories collection is falsy in
Python, so `if repositories:` skips the repository filter entirely: the
query behaves exactly as if no collection had been given, both for
`job_queue_query` and for `next_job`. -/
theorem c10_empty_collection_skips_filter (jobs : List LandingJob)
    (grace_seconds now : Int) :
    job_queue_query jobs (some []) grace_seconds now
        = job_queue_query jobs none grace_seconds now
    ∧ next_job jobs (some []) now = next_job jobs none now :=
  ⟨rfl, rfl⟩

/-- C5 counterexample.  The claim says no non-zero exit is silently
swallowed.  With an external tool that exits 1 on every invocation,
`pull`, `push` and `apply_patch` all complete with no exception (the
subprocess result is never inspected in models.py:220-221, 227-249,
254-255). -/
theorem c5_swallowed_exit_counterexample :
    ( Repo.pull git_fail repo_init).2 = none
    ∧ ( Repo.push git_fail repo_init).2 = none
    ∧ ( Repo.apply_patch git_fail repo_init
          { from_header := "Au Thor <a@example.com>",
            date_header := "Mon, 1 Jan 2024 00:00:00 +0000",
            commit_description := "msg", diff := "diff" }
          "fmsg" "fdiff").error = none :=
  ⟨rfl, rfl, rfl⟩

/-- C5 (amended).  Among the Repository Controller operations only
`initialize()` turns a non-zero exit into an exception (a generic
`Exception` carrying the clone's exit code and captured stderr);
`pull`, `push` and `apply_patch` ignore the subprocess result entirely
and never raise. -/
theorem c5_only_clone_exit_checked (git : GitRunner) (repo : Repo)
    (ph : GitPatchHelper) (f_msg f_diff : String) (repo_root : String) :
    ( Repo.pull git repo).2 = none
    ∧ ( Repo.push git repo).2 = none
    ∧ ( Repo.apply_patch git repo ph f_msg f_diff).error = none
    ∧ (repo.is_initialized = false →
        ∀ result : CommandResult,
          result = ( Repo._run git
              { repo with system_path := repo_root ++ "/" ++ repo.name }
              ["clone", repo.pull_path, repo.name] (some repo_root)).2 →
          result.returncode ≠ 0 →
          ( Repo.initialize git repo_root repo).error
            = some (.cloneFailed result.returncode result.stderr)) := by
  refine ⟨rfl, rfl, rfl, ?_⟩
  intro hinit result hres hcode
  subst hres
  simp only [hinit] at hcode
  simp [ Repo.initialize, hinit, hcode]

/-- C5 witness: the amended theorem at a concrete always-failing tool —
the clone failure surfaces with exit code and stderr, while `pull`
stays silent. -/
theorem c5_witness :
    ( Repo.initialize git_fail "/repos" repo0).error
        = some (RepoError.cloneFailed 1 "boom")
    ∧ ( Repo.pull git_fail repo0).2 = none := by
  have h := c5_only_clone_exit_checked git_fail repo0
    { from_header := "a", date_header := "d", commit_description := "m",
      diff := "f" } "fm" "fd" "/repos"
  exact ⟨h.2.2.2 rfl _ rfl (by decide), h.1⟩

/-- C6 counterexample.  The claim says re-initialization raises
`AlreadyInitializedError` and that `system_path` is set only when the
clone succeeds.  The code instead executes a bare `raise`
(models.py:210) — a `RuntimeError`, no `AlreadyInitializedError` class
exists anywhere in the code — and it assigns `system_path` on the
instance *before* running the clone (models.py:212-213), so after a
failed clone the in-memory instance carries the new `system_path` even
though `is_initialized` stayed false. -/
theorem c6_counterexample :
    ( Repo.initialize git_ok "/repos" repo_init).error
        = some RepoError.bare_raise
    ∧ ( Repo.initialize git_fail "/repos" repo0).mem.system_path
        = "/repos/gecko"
    ∧ repo0.system_path = "" :=
  ⟨rfl, rfl, rfl⟩

/-- C6 (amended).  Calling `initialize()` on an already-initialized
repo raises (a bare re-raise, i.e. `RuntimeError`, not a typed
`AlreadyInitializedError`) and leaves the record unchanged, in memory
and in the database.  Otherwise `system_path` is assigned to the
in-memory instance before the clone runs; `is_initialized` is set and
the record saved only when the clone exits 0; on a non-zero clone exit
a generic `Exception` carrying the exit code and stderr is raised and
the stored record — `is_initialized=false` included — is unchanged. -/
theorem c6_guard_and_clone_outcomes (git : GitRunner) (repo_root : String)
    (repo : Repo) :
    (repo.is_initialized = true →
      Repo.initialize git repo_root repo
        = { db := repo, mem := repo, error := some .bare_raise })
    ∧ (repo.is_initialized = false →
        ∀ result : CommandResult,
          result = ( Repo._run git
              { repo with system_path := repo_root ++ "/" ++ repo.name }
              ["clone", repo.pull_path, repo.name] (some repo_root)).2 →
          (result.returncode = 0 →
            ( Repo.initialize git repo_root repo).db.is_initialized = true
            ∧ ( Repo.initialize git repo_root repo).db.system_path
                = repo_root ++ "/" ++ repo.name
            ∧ ( Repo.initialize git repo_root repo).error = none)
          ∧ (result.returncode ≠ 0 →
            ( Repo.initialize git repo_root repo).db = repo
            ∧ ( Repo.initialize git repo_root repo).mem.system_path
                = repo_root ++ "/" ++ repo.name
            ∧ ( Repo.initialize git repo_root repo).error
                = some (.cloneFailed result.returncode result.stderr))) := by
  constructor
  · intro h
    simp [ Repo.initialize, h]
  · intro h result hres
    subst hres
    constructor
    · intro hc
      simp only [h] at hc
      simp [ Repo.initialize, h, hc]
    · intro hc
      simp only [h] at hc
      simp [ Repo.initialize, h, hc]

/-- C6 witness: the amended theorem at concrete inputs — the guard
fires on an initialized repo, a successful clone saves the flag, a
failed clone leaves the stored row untouched. -/
theorem c6_witness :
    Repo.initialize git_ok "/repos" repo_init
        = { db := repo_init, mem := repo_init,
            error := some RepoError.bare_raise }
    ∧ ( Repo.initialize git_ok "/repos" repo0).db.is_initialized = true
    ∧ ( Repo.initialize git_fail "/repos" repo0).db = repo0 := by
  refine ⟨(c6_guard_and_clone_outcomes git_ok "/repos" repo_init).1 rfl, ?_, ?_⟩
  · exact (((c6_guard_and_clone_outcomes git_ok "/repos" repo0).2 rfl _ rfl).1
      (by decide)).1
  · exact (((c6_guard_and_clone_outcomes git_fail "/repos" repo0).2 rfl _ rfl).2
      (by decide)).1

/-- C7 counterexample.  The claim says a job enqueued without an
explicit status is created in `SUBMITTED`.  The `status` column's
declared default is `None` (models.py:88-94), so the created job's
status is `None`, not `SUBMITTED`. -/
theorem c7_default_status_counterexample :
    (add_job_with_revisions [11, 12] 1 50
        { status := none, priority := none, target_repo := none }).status = none
    ∧ (none : Option LandingJobStatus) ≠ some .SUBMITTED := by decide

/-- C7 (amended).  A job created through `add_job_with_revisions`
without an explicit status argument has status `None` (the field
default), and is associated with exactly the revisions passed in, in
the given order. -/
theorem c7_enqueue_defaults (revisions : List Nat) (id : Nat) (now : Int)
    (params : JobParams) (h : params.status = none) :
    (add_job_with_revisions revisions id now params).status = none
    ∧ (add_job_with_revisions revisions id now params).revisions = revisions := by
  simp [add_job_with_revisions, LandingJob.create, h]

/-- C7 witness: the amended theorem at a concrete two-revision
enqueue. -/
theorem c7_witness :
    (add_job_with_revisions [11, 12] 1 50
        { status := none, priority := none, target_repo := none }).status = none
    ∧ (add_job_with_revisions [11, 12] 1 50
        { status := none, priority := none, target_repo := none }).revisions
      = [11, 12] :=
  c7_enqueue_defaults [11, 12] 1 50
    { status := none, priority := none, target_repo := none } rfl

/-- C8.  `apply_patch` issues exactly `git apply <diff-file>`,
`git add -A`, `git commit --date <Date header> --author <From header>
--file <message-file>`, in that order — the commit comes after the diff
is applied and all changes are staged, the author identity and date are
the buffer's `From` and `Date` header fields (not any worker identity),
and the commit-message file holds the message extracted from the
buffer. -/
theorem c8_commit_uses_patch_metadata (git : GitRunner) (repo : Repo)
    (ph : GitPatchHelper) (f_msg f_diff : String) :
    ( Repo.apply_patch git repo ph f_msg f_diff).calls
      = [{ cwd := repo.system_path, command := ["git", "apply", f_diff] },
         { cwd := repo.system_path, command := ["git", "add", "-A"] },
         { cwd := repo.system_path,
           command := ["git", "commit", "--date", ph.date_header, "--author",
                       ph.from_header, "--file", f_msg] }]
    ∧ ( Repo.apply_patch git repo ph f_msg f_diff).msg_file
        = (f_msg, ph.commit_description)
    ∧ ( Repo.apply_patch git repo ph f_msg f_diff).diff_file
        = (f_diff, ph.diff) :=
  ⟨rfl, rfl, rfl⟩

end Lando
